import Mathlib

/-!
Verification of the friend-relationship state model of the Fitnest
application. The route handlers `add_friend_userid_provided`,
`remove_friend_userid_provided` and `show_friends` are embedded from
`app/myapp/routes.py` (both the "Fitnest Health Applic" and the
"Fitnest Health app" variants, whose friend logic is identical up to
flash-message wording). The status resolver `get_friend_status` lives in
`myapp/models_methods.py`, which is not part of the sources at hand; it is
modelled from the specification (section 4.1, `resolve_status`).
-/

namespace Fitnest

/-- The enumerated status stored on a friend-request record
(`FriendStatusEnum` in `myapp/models.py`, as used by `routes.py`). -/
inductive FriendStatusEnum where
  | PENDING
  | FRIEND
deriving DecidableEq, Repr

/-- A directed friend-request record (`Friend` in `myapp/models.py`):
`user1_id` is the requester and `user2_id` the recipient, as established by
`Friend(user1_id=current_user.get_id(), user2_id=user.id, status=PENDING)`
in `add_friend_userid_provided`. -/
structure Friend where
  user1_id : Nat
  user2_id : Nat
  status : FriendStatusEnum
deriving DecidableEq, Repr

/-- Record `r` links the unordered pair of users `(a, b)`: the
order-independent lookup condition of the resolver. -/
def matchesPair (r : Friend) (a b : Nat) : Bool :=
  (r.user1_id == a && r.user2_id == b) || (r.user1_id == b && r.user2_id == a)

/-- The relationship table is a list of records; the record the resolver
works with is the first one linking the unordered pair `(a, b)`. -/
def findPair (store : List Friend) (a b : Nat) : Option Friend :=
  store.find? (fun r => matchesPair r a b)

/-- Modelled from the spec: `get_friend_status` is defined in
`myapp/models_methods.py`, which is absent from the sources (only its
callers in `routes.py` are present). Spec section 4.1 (`resolve_status`):
look up the unique record for the unordered pair; if none is found the
result is `(neutral, null)`; a FRIEND record gives `(friend, record)`; a
PENDING record gives `(pending-sent-request, record)` when the querying
user `a` is the requester and `(pending-to-approve, record)` when the
counterpart `b` is the requester. -/
def get_friend_status (store : List Friend) (a b : Nat) :
    String × Option Friend :=
  match findPair store a b with
  | none => ("neutral", none)
  | some r =>
    match r.status with
    | FriendStatusEnum.FRIEND => ("friend", some r)
    | FriendStatusEnum.PENDING =>
      if r.user1_id == a then ("pending-sent-request", some r)
      else ("pending-to-approve", some r)

/-- How a route invocation fails: `abort404` is a flask
`abort(404, description=...)`, rendered to the caller by the registered 404
error handler `page_not_found`; `uncaughtNoResultFound` is the sqlalchemy
`NoResultFound` exception raised by `.one()` when no row matches, which no
code in `routes.py` catches, so it escapes as an internal server error. -/
inductive RouteError where
  | abort404 (description : String)
  | uncaughtNoResultFound
deriving DecidableEq, Repr

/-- `User.query.filter_by(id=user_id).one()`: users are modelled by their
ids (primary keys, hence duplicate-free); `.one()` raises `NoResultFound`
when the id is absent from the user table. -/
def queryUserOne (users : List Nat) (uid : Nat) : Except RouteError Nat :=
  if users.contains uid then Except.ok uid
  else Except.error RouteError.uncaughtNoResultFound

/-- `friend_record.status = FriendStatusEnum.FRIEND; db.session.commit()`:
update in place the record the resolver found, i.e. the first record of the
store linking the unordered pair `(a, b)`. -/
def approveFirstPair (store : List Friend) (a b : Nat) : List Friend :=
  match store with
  | [] => []
  | r :: rs =>
    if matchesPair r a b then
      { r with status := FriendStatusEnum.FRIEND } :: rs
    else r :: approveFirstPair rs a b

/-- `db.session.delete(friend_record); db.session.commit()`: remove the
record the resolver found, i.e. the first record linking the pair. -/
def deleteFirstPair (store : List Friend) (a b : Nat) : List Friend :=
  match store with
  | [] => []
  | r :: rs => if matchesPair r a b then rs else r :: deleteFirstPair rs a b

/-- The status dispatch of `add_friend_userid_provided` in `routes.py`,
after the self-check, as a function of the status string the resolver
returned: FRIEND and an own pending request do nothing, a pending request
from the other user is approved by mutating the found record, a neutral
pair gets a fresh PENDING record for the looked-up user, and any other
status string hits `abort(404, description=f"Unknown status {status}")`. -/
def add_friend_body (users : List Nat) (store : List Friend) (cur uid : Nat)
    (status : String) : Except RouteError (List Friend) :=
  if status == "friend" then Except.ok store
  else if status == "pending-sent-request" then Except.ok store
  else if status == "pending-to-approve" then
    Except.ok (approveFirstPair store cur uid)
  else if status == "neutral" then
    match queryUserOne users uid with
    | Except.error e => Except.error e
    | Except.ok u =>
      Except.ok (store ++
        [{ user1_id := cur, user2_id := u,
           status := FriendStatusEnum.PENDING }])
  else Except.error (RouteError.abort404 s!"Unknown status {status}")

/-- `add_friend_userid_provided(user_id)` from `routes.py`, acting as user
`cur`: abort 404 when adding oneself, otherwise resolve the status of the
pair and dispatch on it. The result is the relationship table after the
handler commits. -/
def add_friend (users : List Nat) (store : List Friend) (cur uid : Nat) :
    Except RouteError (List Friend) :=
  if cur == uid then
    Except.error (RouteError.abort404 "Cannot add yourself as friend")
  else add_friend_body users store cur uid (get_friend_status store cur uid).1

/-- The status dispatch of `remove_friend_userid_provided` once a record
was found: every recognized status string (the branches only differ in the
flash message) falls through to `db.session.delete(friend_record)`, while
an unrecognized one hits `abort(404, description=f'Unknown status ...')`
before the delete. -/
def remove_friend_body (store : List Friend) (cur uid : Nat)
    (status : String) : Except RouteError (List Friend) :=
  if status == "friend" || status == "pending-sent-request" ||
      status == "pending-to-approve" || status == "neutral" then
    Except.ok (deleteFirstPair store cur uid)
  else Except.error (RouteError.abort404 s!"Unknown status {status}")

/-- `remove_friend_userid_provided(user_id)` from `routes.py`, acting as
user `cur`: abort 404 when removing oneself; when the resolver produced no
record (`if friend_record:` falsy) nothing happens; otherwise dispatch on
the status string and delete the record. -/
def remove_friend (store : List Friend) (cur uid : Nat) :
    Except RouteError (List Friend) :=
  if cur == uid then
    Except.error (RouteError.abort404 "Cannot remove yourself from friend")
  else
    match get_friend_status store cur uid with
    | (_, none) => Except.ok store
    | (status, some _) => remove_friend_body store cur uid status

/-- One iteration of the listing loop of `show_friends` in the
"Fitnest Health Applic" variant of `routes.py`: classify the status string
of a relationship with user `othId` into the printed label and the buttons
`(link, text, button_type)`, aborting 404 on any other status string. -/
def show_friends_entry (status : String) (othId : Nat) :
    Except RouteError (String × List (String × String × String)) :=
  if status == "friend" then
    Except.ok ("Friend",
      [(s!"/remove-friend/{othId}", "Remove Friend", "btn-outline-danger")])
  else if status == "pending-sent-request" then
    Except.ok ("Sent",
      [(s!"/remove-friend/{othId}", "Unsend", "btn-outline-warning")])
  else if status == "pending-to-approve" then
    Except.ok ("Pending",
      [(s!"/add-friend/{othId}", "Approve", "btn-outline-success"),
       (s!"/remove-friend/{othId}", "Reject", "btn-outline-danger")])
  else Except.error (RouteError.abort404 s!"Unknown status {status}")

/-- Whether a route outcome is a handled not-found condition, i.e. a flask
`abort(404, ...)` answered by the registered `page_not_found` handler. -/
def reportsNotFound (e : Except RouteError (List Friend)) : Bool :=
  match e with
  | Except.error (RouteError.abort404 _) => true
  | _ => false

/-- Records `r` and `s` cover the same unordered pair of users. -/
def samePair (r s : Friend) : Bool :=
  matchesPair s r.user1_id r.user2_id

/-- Spec section 3 invariant: at most one record exists for any unordered
pair of users. -/
def PairUnique (store : List Friend) : Prop :=
  store.Pairwise (fun r s => samePair r s = false)

/-! Helper lemmas about the pair lookup and the store operations. -/

theorem matchesPair_symm (r : Friend) (a b : Nat) :
    matchesPair r a b = matchesPair r b a := by
  simp only [matchesPair]
  exact Bool.or_comm _ _

theorem matchesPair_set_status (r : Friend) (x : FriendStatusEnum)
    (a b : Nat) :
    matchesPair { r with status := x } a b = matchesPair r a b := rfl

theorem samePair_of_matches (h r : Friend) (a b : Nat)
    (hh : matchesPair h a b = true) (hr : matchesPair r a b = true) :
    samePair h r = true := by
  simp only [matchesPair, samePair, Bool.or_eq_true, Bool.and_eq_true,
    beq_iff_eq] at *
  omega

theorem findPair_cons (r : Friend) (t : List Friend) (a b : Nat) :
    findPair (r :: t) a b =
      if matchesPair r a b then some r else findPair t a b := by
  cases hm : matchesPair r a b <;> simp [findPair, List.find?_cons, hm]

theorem findPair_symm (store : List Friend) (a b : Nat) :
    findPair store a b = findPair store b a := by
  induction store with
  | nil => rfl
  | cons h t ih =>
    rw [findPair_cons, findPair_cons, matchesPair_symm, ih]

theorem findPair_of_mem (store : List Friend) (r : Friend) (a b : Nat)
    (hu : PairUnique store) (hr : r ∈ store)
    (hm : matchesPair r a b = true) :
    findPair store a b = some r := by
  induction store with
  | nil => cases hr
  | cons h t ih =>
    simp only [PairUnique, List.pairwise_cons] at hu
    rw [findPair_cons]
    rcases List.mem_cons.mp hr with rfl | hrt
    · rw [if_pos hm]
    · cases hh : matchesPair h a b with
      | true =>
        exfalso
        have h1 := samePair_of_matches h r a b hh hm
        have h2 := hu.1 r hrt
        rw [h1] at h2
        simp at h2
      | false =>
        rw [if_neg (by simp [hh])]
        exact ih hu.2 hrt

theorem findPair_eq_none_iff (store : List Friend) (a b : Nat) :
    findPair store a b = none ↔
      ∀ r ∈ store, matchesPair r a b = false := by
  simp [findPair, List.find?_eq_none]

theorem findPair_append_single (store : List Friend) (x : Friend)
    (a b : Nat) (h : findPair store a b = none) :
    findPair (store ++ [x]) a b =
      if matchesPair x a b then some x else none := by
  induction store with
  | nil => simp [findPair_cons, findPair]
  | cons hd t ih =>
    rw [findPair_cons] at h
    rw [List.cons_append, findPair_cons]
    cases hm : matchesPair hd a b with
    | true => rw [hm] at h; simp at h
    | false =>
      rw [hm] at h
      simp only [Bool.false_eq_true, if_false] at h ⊢
      exact ih h

theorem approveFirstPair_symm (store : List Friend) (a b : Nat) :
    approveFirstPair store a b = approveFirstPair store b a := by
  induction store with
  | nil => rfl
  | cons hd t ih =>
    simp only [approveFirstPair, matchesPair_symm hd a b, ih]

theorem deleteFirstPair_symm (store : List Friend) (a b : Nat) :
    deleteFirstPair store a b = deleteFirstPair store b a := by
  induction store with
  | nil => rfl
  | cons hd t ih =>
    simp only [deleteFirstPair, matchesPair_symm hd a b, ih]

theorem approveFirstPair_length (store : List Friend) (a b : Nat) :
    (approveFirstPair store a b).length = store.length := by
  induction store with
  | nil => rfl
  | cons hd t ih =>
    cases hm : matchesPair hd a b <;> simp [approveFirstPair, hm, ih]

theorem findPair_approveFirstPair (store : List Friend) (r : Friend)
    (a b : Nat) (h : findPair store a b = some r) :
    findPair (approveFirstPair store a b) a b =
      some { r with status := FriendStatusEnum.FRIEND } := by
  induction store with
  | nil => simp [findPair] at h
  | cons hd t ih =>
    rw [findPair_cons] at h
    cases hm : matchesPair hd a b with
    | true =>
      rw [hm] at h
      simp only [if_true] at h
      cases h
      simp [approveFirstPair, hm, findPair_cons, matchesPair_set_status]
    | false =>
      rw [hm] at h
      simp only [Bool.false_eq_true, if_false] at h
      simp only [approveFirstPair, hm, Bool.false_eq_true, if_false]
      rw [findPair_cons, if_neg (by simp [hm])]
      exact ih h

theorem mem_approveFirstPair (store : List Friend) (a b : Nat) (s : Friend)
    (hs : s ∈ approveFirstPair store a b) :
    s ∈ store ∨
      ∃ r, r ∈ store ∧ s = { r with status := FriendStatusEnum.FRIEND } := by
  induction store with
  | nil => simp [approveFirstPair] at hs
  | cons hd t ih =>
    cases hm : matchesPair hd a b with
    | true =>
      rw [approveFirstPair, if_pos hm] at hs
      rcases List.mem_cons.mp hs with rfl | hst
      · exact Or.inr ⟨hd, List.mem_cons_self _ _, rfl⟩
      · exact Or.inl (List.mem_cons_of_mem _ hst)
    | false =>
      rw [approveFirstPair, if_neg (by simp [hm])] at hs
      rcases List.mem_cons.mp hs with rfl | hst
      · exact Or.inl (List.mem_cons_self _ _)
      · rcases ih hst with h | ⟨r, hr, rfl⟩
        · exact Or.inl (List.mem_cons_of_mem _ h)
        · exact Or.inr ⟨r, List.mem_cons_of_mem _ hr, rfl⟩

theorem samePair_set_status_left (r s : Friend) (x : FriendStatusEnum) :
    samePair { r with status := x } s = samePair r s := rfl

theorem samePair_set_status_right (r s : Friend) (x : FriendStatusEnum) :
    samePair r { s with status := x } = samePair r s := rfl

theorem pairUnique_approveFirstPair (store : List Friend) (a b : Nat)
    (hu : PairUnique store) :
    PairUnique (approveFirstPair store a b) := by
  induction store with
  | nil => exact hu
  | cons hd t ih =>
    simp only [PairUnique, List.pairwise_cons] at hu ⊢
    cases hm : matchesPair hd a b with
    | true =>
      rw [approveFirstPair, if_pos hm, List.pairwise_cons]
      refine ⟨fun s hs => ?_, hu.2⟩
      rw [samePair_set_status_left]
      exact hu.1 s hs
    | false =>
      rw [approveFirstPair, if_neg (by simp [hm]), List.pairwise_cons]
      refine ⟨fun s hs => ?_, ih hu.2⟩
      rcases mem_approveFirstPair t a b s hs with h | ⟨r, hr, rfl⟩
      · exact hu.1 s h
      · rw [samePair_set_status_right]
        exact hu.1 r hr

theorem deleteFirstPair_sublist (store : List Friend) (a b : Nat) :
    (deleteFirstPair store a b).Sublist store := by
  induction store with
  | nil => simp [deleteFirstPair]
  | cons hd t ih =>
    cases hm : matchesPair hd a b with
    | true =>
      rw [deleteFirstPair, if_pos hm]
      exact (List.Sublist.refl t).cons hd
    | false =>
      rw [deleteFirstPair, if_neg (by simp [hm])]
      exact ih.cons₂ hd

theorem pairUnique_deleteFirstPair (store : List Friend) (a b : Nat)
    (hu : PairUnique store) :
    PairUnique (deleteFirstPair store a b) := by
  exact List.Pairwise.sublist (deleteFirstPair_sublist store a b) hu

theorem findPair_deleteFirstPair (store : List Friend) (a b : Nat)
    (hu : PairUnique store) :
    findPair (deleteFirstPair store a b) a b = none := by
  induction store with
  | nil => rfl
  | cons hd t ih =>
    simp only [PairUnique, List.pairwise_cons] at hu
    cases hm : matchesPair hd a b with
    | true =>
      rw [deleteFirstPair, if_pos hm]
      rw [findPair_eq_none_iff]
      intro r hr
      cases hmr : matchesPair r a b with
      | true =>
        exfalso
        have h1 := samePair_of_matches hd r a b hm hmr
        have h2 := hu.1 r hr
        rw [h1] at h2
        simp at h2
      | false => rfl
    | false =>
      rw [deleteFirstPair, if_neg (by simp [hm]), findPair_cons,
        if_neg (by simp [hm])]
      exact ih hu.2

theorem pairUnique_append_new (store : List Friend) (a b : Nat)
    (st : FriendStatusEnum) (hu : PairUnique store)
    (h : findPair store a b = none) :
    PairUnique
      (store ++ [{ user1_id := a, user2_id := b, status := st }]) := by
  simp only [PairUnique] at hu ⊢
  rw [List.pairwise_append]
  refine ⟨hu, List.pairwise_singleton _ _, ?_⟩
  intro r hr x hx
  rw [List.mem_singleton] at hx
  subst hx
  have hno := (findPair_eq_none_iff store a b).mp h r hr
  simp only [matchesPair, samePair, Bool.or_eq_false_iff,
    Bool.and_eq_false_iff, beq_eq_false_iff_ne, ne_eq] at hno ⊢
  omega

/-! Evaluation lemmas for the resolver. -/

theorem get_friend_status_of_none (store : List Friend) (a b : Nat)
    (h : findPair store a b = none) :
    get_friend_status store a b = ("neutral", none) := by
  simp [get_friend_status, h]

theorem get_friend_status_of_friend (store : List Friend) (r : Friend)
    (a b : Nat) (h : findPair store a b = some r)
    (hst : r.status = FriendStatusEnum.FRIEND) :
    get_friend_status store a b = ("friend", some r) := by
  simp [get_friend_status, h, hst]

theorem get_friend_status_of_sent (store : List Friend) (r : Friend)
    (a b : Nat) (h : findPair store a b = some r)
    (hst : r.status = FriendStatusEnum.PENDING) (hreq : r.user1_id = a) :
    get_friend_status store a b = ("pending-sent-request", some r) := by
  simp [get_friend_status, h, hst, hreq]

theorem get_friend_status_of_approve (store : List Friend) (r : Friend)
    (a b : Nat) (h : findPair store a b = some r)
    (hst : r.status = FriendStatusEnum.PENDING) (hreq : r.user1_id ≠ a) :
    get_friend_status store a b = ("pending-to-approve", some r) := by
  simp [get_friend_status, h, hst, hreq]

/-! The claim theorems. -/

/-- C1: for distinct users `a` and `b` over a store satisfying the
unordered-pair uniqueness invariant, the resolver classifies the pair by
the stored record: no record for the pair gives `(neutral, null)`; a
FRIEND record gives `(friend, record)`; a PENDING record whose requester
is `a` gives `(pending-sent-request, record)`; a PENDING record whose
requester is `b` gives `(pending-to-approve, record)`. -/
theorem C1_resolver_classification (store : List Friend) (a b : Nat)
    (hab : a ≠ b) (hu : PairUnique store) :
    (findPair store a b = none →
      get_friend_status store a b = ("neutral", none)) ∧
    (∀ r ∈ store, matchesPair r a b = true →
      (r.status = FriendStatusEnum.FRIEND →
        get_friend_status store a b = ("friend", some r)) ∧
      (r.status = FriendStatusEnum.PENDING → r.user1_id = a →
        get_friend_status store a b = ("pending-sent-request", some r)) ∧
      (r.status = FriendStatusEnum.PENDING → r.user1_id = b →
        get_friend_status store a b = ("pending-to-approve", some r))) := by
  refine ⟨fun h => get_friend_status_of_none store a b h, ?_⟩
  intro r hr hm
  have hf := findPair_of_mem store r a b hu hr hm
  refine ⟨fun hst => get_friend_status_of_friend store r a b hf hst,
    fun hst hreq => get_friend_status_of_sent store r a b hf hst hreq,
    fun hst hreq => get_friend_status_of_approve store r a b hf hst ?_⟩
  rw [hreq]
  exact fun hc => hab hc.symm

/-- C1 witness: on the one-record store where user 1 has a pending request
toward user 2, the resolver answers pending-sent-request for `(1, 2)`. -/
theorem C1_resolver_classification_witness :
    get_friend_status [⟨1, 2, FriendStatusEnum.PENDING⟩] 1 2 =
      ("pending-sent-request", some ⟨1, 2, FriendStatusEnum.PENDING⟩) :=
  (((C1_resolver_classification [⟨1, 2, FriendStatusEnum.PENDING⟩] 1 2
      (by decide) (by simp [PairUnique])).2
    ⟨1, 2, FriendStatusEnum.PENDING⟩ (by simp) (by decide)).2.1 rfl rfl)

/-- C6: removing a friend when no record links the pair is a no-op and not
an error: the handler returns the store unchanged. -/
theorem C6_remove_nonexistent_noop (store : List Friend) (cur uid : Nat)
    (hne : cur ≠ uid) (hnone : findPair store cur uid = none) :
    remove_friend store cur uid = Except.ok store := by
  simp [remove_friend, hne, get_friend_status_of_none store cur uid hnone]

/-- C6 witness: removing user 2 from user 1 on the empty store succeeds and
changes nothing. -/
theorem C6_remove_nonexistent_noop_witness :
    remove_friend [] 1 2 = Except.ok [] :=
  C6_remove_nonexistent_noop [] 1 2 (by decide) rfl

/-- C7: both operations reject a self-referential call with an
invalid-operation abort 404 for every store, before the resolver result
can matter, and produce no updated store. -/
theorem C7_self_operation_rejected (users : List Nat)
    (store : List Friend) (u : Nat) :
    add_friend users store u u =
      Except.error (RouteError.abort404 "Cannot add yourself as friend") ∧
    remove_friend store u u =
      Except.error
        (RouteError.abort404 "Cannot remove yourself from friend") := by
  constructor <;> simp [add_friend, remove_friend]

/-- C8: a status string other than the four known classifications makes
each consuming operation abort with a 404 signal instead of silently
treating it as some default status: the listing loop of `show_friends`,
the dispatch of `add_friend_userid_provided`, and the dispatch of
`remove_friend_userid_provided` on a found record. -/
theorem C8_unknown_status_aborts (users : List Nat) (store : List Friend)
    (cur uid othId : Nat) (s : String) (h1 : s ≠ "friend")
    (h2 : s ≠ "pending-sent-request") (h3 : s ≠ "pending-to-approve")
    (h4 : s ≠ "neutral") :
    show_friends_entry s othId =
      Except.error (RouteError.abort404 s!"Unknown status {s}") ∧
    add_friend_body users store cur uid s =
      Except.error (RouteError.abort404 s!"Unknown status {s}") ∧
    remove_friend_body store cur uid s =
      Except.error (RouteError.abort404 s!"Unknown status {s}") := by
  refine ⟨?_, ?_, ?_⟩ <;>
    simp [show_friends_entry, add_friend_body, remove_friend_body,
      h1, h2, h3, h4]

/-- C8 witness: the status string "corrupt" makes all three consumers
abort. -/
theorem C8_unknown_status_aborts_witness :
    show_friends_entry "corrupt" 5 =
      Except.error (RouteError.abort404 "Unknown status corrupt") ∧
    add_friend_body [] [] 1 5 "corrupt" =
      Except.error (RouteError.abort404 "Unknown status corrupt") ∧
    remove_friend_body [] 1 5 "corrupt" =
      Except.error (RouteError.abort404 "Unknown status corrupt") :=
  C8_unknown_status_aborts [] [] 1 5 5 "corrupt"
    (by decide) (by decide) (by decide) (by decide)

/-- C9 counterexample: with an empty user table and no record, user 1
adding the missing user 2 does not produce a handled not-found response:
the handler fails with the uncaught `NoResultFound` exception raised by
`User.query.filter_by(id=user_id).one()`, which no route code catches. -/
theorem C9_counterexample :
    add_friend [] [] 1 2 = Except.error RouteError.uncaughtNoResultFound ∧
    reportsNotFound (add_friend [] [] 1 2) = false := ⟨rfl, rfl⟩

/-- C9 amended: an add-friend invocation toward a user id absent from the
user table, for a pair with no record, fails with the uncaught
`NoResultFound` database exception (an internal server error, not a
handled not-found response); the error means no store is produced, so no
`FriendRecord` is created. -/
theorem C9_missing_user_uncaught (users : List Nat) (store : List Friend)
    (cur uid : Nat) (hne : cur ≠ uid) (hnou : uid ∉ users)
    (hnone : findPair store cur uid = none) :
    add_friend users store cur uid =
      Except.error RouteError.uncaughtNoResultFound := by
  simp [add_friend, hne, get_friend_status_of_none store cur uid hnone,
    add_friend_body, queryUserOne, hnou]

/-- C9 amended witness: user 3 adding the absent user 7 on the empty store
raises the uncaught exception. -/
theorem C9_missing_user_uncaught_witness :
    add_friend [1, 2] [] 3 7 =
      Except.error RouteError.uncaughtNoResultFound :=
  C9_missing_user_uncaught [1, 2] [] 3 7 (by decide) (by decide) rfl

/-- C2: on a PENDING record requested by `a` toward `b`, add-friend invoked
by `b` flips the record to FRIEND in place (it stays in the store, the
resolver then answers friend with the updated record, and no record is
added or removed), while add-friend invoked by `a`, the original
requester, returns the store unchanged. -/
theorem C2_approve_and_requester_noop (users : List Nat)
    (store : List Friend) (r : Friend) (a b : Nat) (hu : PairUnique store)
    (hr : r ∈ store) (hst : r.status = FriendStatusEnum.PENDING)
    (h1 : r.user1_id = a) (h2 : r.user2_id = b) (hab : a ≠ b) :
    add_friend users store b a =
      Except.ok (approveFirstPair store b a) ∧
    { r with status := FriendStatusEnum.FRIEND } ∈
      approveFirstPair store b a ∧
    get_friend_status (approveFirstPair store b a) a b =
      ("friend", some { r with status := FriendStatusEnum.FRIEND }) ∧
    (approveFirstPair store b a).length = store.length ∧
    add_friend users store a b = Except.ok store := by
  have hm : matchesPair r a b = true := by simp [matchesPair, h1, h2]
  have hmba : matchesPair r b a = true := by
    rw [← matchesPair_symm]; exact hm
  have hfba : findPair store b a = some r :=
    findPair_of_mem store r b a hu hr hmba
  have hfab : findPair store a b = some r :=
    findPair_of_mem store r a b hu hr hm
  have hba : b ≠ a := fun h => hab h.symm
  have hneq : r.user1_id ≠ b := by rw [h1]; exact hab
  have hgba := get_friend_status_of_approve store r b a hfba hst hneq
  have happ := findPair_approveFirstPair store r b a hfba
  refine ⟨?_, ?_, ?_, approveFirstPair_length store b a, ?_⟩
  · simp [add_friend, hba, hgba, add_friend_body]
  · exact List.mem_of_find?_eq_some happ
  · have hfound :
        findPair (approveFirstPair store b a) a b =
          some { r with status := FriendStatusEnum.FRIEND } := by
      rw [findPair_symm]; exact happ
    exact get_friend_status_of_friend _ _ a b hfound rfl
  · have hga := get_friend_status_of_sent store r a b hfab hst h1
    simp [add_friend, hab, hga, add_friend_body]

/-- C2 witness: user 2 approves the pending request from user 1, turning
the record of the one-record store into FRIEND. -/
theorem C2_approve_and_requester_noop_witness :
    add_friend [] [⟨1, 2, FriendStatusEnum.PENDING⟩] 2 1 =
      Except.ok (approveFirstPair [⟨1, 2, FriendStatusEnum.PENDING⟩] 2 1) ∧
    (⟨1, 2, FriendStatusEnum.FRIEND⟩ : Friend) ∈
      approveFirstPair [⟨1, 2, FriendStatusEnum.PENDING⟩] 2 1 ∧
    get_friend_status (approveFirstPair [⟨1, 2, FriendStatusEnum.PENDING⟩] 2 1)
        1 2 = ("friend", some ⟨1, 2, FriendStatusEnum.FRIEND⟩) ∧
    (approveFirstPair [⟨1, 2, FriendStatusEnum.PENDING⟩] 2 1).length =
      ([⟨1, 2, FriendStatusEnum.PENDING⟩] : List Friend).length ∧
    add_friend [] [⟨1, 2, FriendStatusEnum.PENDING⟩] 1 2 =
      Except.ok [⟨1, 2, FriendStatusEnum.PENDING⟩] :=
  C2_approve_and_requester_noop [] [⟨1, 2, FriendStatusEnum.PENDING⟩]
    ⟨1, 2, FriendStatusEnum.PENDING⟩ 1 2 (by simp [PairUnique]) (by simp)
    rfl rfl rfl (by decide)

/-- C3: from a pair with no record, `a` adding `b` (an existing user)
appends one PENDING record with requester `a`; exactly one record then
links the pair, and the resolver answers pending-sent-request from the
side of `a` and pending-to-approve from the side of `b`, with the same
record. -/
theorem C3_request_creates_pending (users : List Nat)
    (store : List Friend) (a b : Nat) (hab : a ≠ b)
    (hnone : findPair store a b = none) (hb : b ∈ users) :
    add_friend users store a b =
      Except.ok (store ++ [⟨a, b, FriendStatusEnum.PENDING⟩]) ∧
    ((store ++ [(⟨a, b, FriendStatusEnum.PENDING⟩ : Friend)]).filter
        (fun r => matchesPair r a b)).length = 1 ∧
    get_friend_status (store ++ [⟨a, b, FriendStatusEnum.PENDING⟩]) a b =
      ("pending-sent-request", some ⟨a, b, FriendStatusEnum.PENDING⟩) ∧
    get_friend_status (store ++ [⟨a, b, FriendStatusEnum.PENDING⟩]) b a =
      ("pending-to-approve", some ⟨a, b, FriendStatusEnum.PENDING⟩) := by
  have hmx : matchesPair ⟨a, b, FriendStatusEnum.PENDING⟩ a b = true := by
    simp [matchesPair]
  have hfnew :=
    findPair_append_single store ⟨a, b, FriendStatusEnum.PENDING⟩ a b hnone
  rw [if_pos hmx] at hfnew
  have hfnew' :
      findPair (store ++ [⟨a, b, FriendStatusEnum.PENDING⟩]) b a =
        some ⟨a, b, FriendStatusEnum.PENDING⟩ := by
    rw [← findPair_symm]; exact hfnew
  refine ⟨?_, ?_, ?_, ?_⟩
  · simp [add_friend, hab, get_friend_status_of_none store a b hnone,
      add_friend_body, queryUserOne, hb]
  · have hfe : store.filter (fun r => matchesPair r a b) = [] :=
      List.filter_eq_nil_iff.mpr (by
        intro r hrr
        simp [(findPair_eq_none_iff store a b).mp hnone r hrr])
    rw [List.filter_append, hfe]
    simp [hmx]
  · exact get_friend_status_of_sent _ _ a b hfnew rfl rfl
  · exact get_friend_status_of_approve _ _ b a hfnew' rfl (by exact hab)

/-- C3 witness: user 1 requesting the existing user 2 on the empty store
creates the pending record and the two one-sided views. -/
theorem C3_request_creates_pending_witness :
    add_friend [2] [] 1 2 =
      Except.ok [⟨1, 2, FriendStatusEnum.PENDING⟩] ∧
    (([⟨1, 2, FriendStatusEnum.PENDING⟩] : List Friend).filter
        (fun r => matchesPair r 1 2)).length = 1 ∧
    get_friend_status [⟨1, 2, FriendStatusEnum.PENDING⟩] 1 2 =
      ("pending-sent-request", some ⟨1, 2, FriendStatusEnum.PENDING⟩) ∧
    get_friend_status [⟨1, 2, FriendStatusEnum.PENDING⟩] 2 1 =
      ("pending-to-approve", some ⟨1, 2, FriendStatusEnum.PENDING⟩) :=
  C3_request_creates_pending [2] [] 1 2 (by decide) rfl (by simp)

/-- C4: on a pair linked by a record of any status, remove-friend invoked
by either party deletes the record, after which the resolver answers
neutral on both sides. -/
theorem C4_remove_deletes_both_ways (store : List Friend) (r : Friend)
    (a b : Nat) (hu : PairUnique store) (hr : r ∈ store)
    (hm : matchesPair r a b = true) (hab : a ≠ b) :
    remove_friend store a b = Except.ok (deleteFirstPair store a b) ∧
    remove_friend store b a = Except.ok (deleteFirstPair store a b) ∧
    get_friend_status (deleteFirstPair store a b) a b =
      ("neutral", none) ∧
    get_friend_status (deleteFirstPair store a b) b a =
      ("neutral", none) := by
  have hmba : matchesPair r b a = true := by
    rw [← matchesPair_symm]; exact hm
  have hfab := findPair_of_mem store r a b hu hr hm
  have hfba := findPair_of_mem store r b a hu hr hmba
  have hba : b ≠ a := fun h => hab h.symm
  have hdel := findPair_deleteFirstPair store a b hu
  have hdel' : findPair (deleteFirstPair store a b) b a = none := by
    rw [← findPair_symm]; exact hdel
  have hrm : ∀ c d : Nat, c ≠ d → findPair store c d = some r →
      remove_friend store c d = Except.ok (deleteFirstPair store c d) := by
    intro c d hcd hf
    cases hst : r.status with
    | FRIEND =>
      simp [remove_friend, hcd,
        get_friend_status_of_friend store r c d hf hst, remove_friend_body]
    | PENDING =>
      by_cases hq : r.user1_id = c
      · simp [remove_friend, hcd,
          get_friend_status_of_sent store r c d hf hst hq,
          remove_friend_body]
      · simp [remove_friend, hcd,
          get_friend_status_of_approve store r c d hf hst hq,
          remove_friend_body]
  have h2 := hrm b a hba hfba
  rw [deleteFirstPair_symm store b a] at h2
  exact ⟨hrm a b hab hfab, h2, get_friend_status_of_none _ a b hdel,
    get_friend_status_of_none _ b a hdel'⟩

/-- C4 witness: either user removing the FRIEND record between users 1 and
2 empties the store and both views become neutral. -/
theorem C4_remove_deletes_both_ways_witness :
    remove_friend [⟨1, 2, FriendStatusEnum.FRIEND⟩] 1 2 =
      Except.ok (deleteFirstPair [⟨1, 2, FriendStatusEnum.FRIEND⟩] 1 2) ∧
    remove_friend [⟨1, 2, FriendStatusEnum.FRIEND⟩] 2 1 =
      Except.ok (deleteFirstPair [⟨1, 2, FriendStatusEnum.FRIEND⟩] 1 2) ∧
    get_friend_status (deleteFirstPair [⟨1, 2, FriendStatusEnum.FRIEND⟩] 1 2)
        1 2 = ("neutral", none) ∧
    get_friend_status (deleteFirstPair [⟨1, 2, FriendStatusEnum.FRIEND⟩] 1 2)
        2 1 = ("neutral", none) :=
  C4_remove_deletes_both_ways [⟨1, 2, FriendStatusEnum.FRIEND⟩]
    ⟨1, 2, FriendStatusEnum.FRIEND⟩ 1 2 (by simp [PairUnique]) (by simp)
    (by decide) (by decide)

/-- C10: on a pair whose record already has status FRIEND, add-friend
invoked by either party succeeds and returns the store exactly unchanged:
the record keeps status FRIEND, nothing is inserted, nothing aborts. -/
theorem C10_friend_add_noop (users : List Nat) (store : List Friend)
    (r : Friend) (a b : Nat) (hu : PairUnique store) (hr : r ∈ store)
    (hm : matchesPair r a b = true)
    (hst : r.status = FriendStatusEnum.FRIEND) (hab : a ≠ b) :
    add_friend users store a b = Except.ok store ∧
    add_friend users store b a = Except.ok store := by
  have hmba : matchesPair r b a = true := by
    rw [← matchesPair_symm]; exact hm
  have hfab := findPair_of_mem store r a b hu hr hm
  have hfba := findPair_of_mem store r b a hu hr hmba
  have hba : b ≠ a := fun h => hab h.symm
  constructor
  · simp [add_friend, hab,
      get_friend_status_of_friend store r a b hfab hst, add_friend_body]
  · simp [add_friend, hba,
      get_friend_status_of_friend store r b a hfba hst, add_friend_body]

/-- C10 witness: with users 1 and 2 already friends, both directions of
add-friend leave the one-record store unchanged. -/
theorem C10_friend_add_noop_witness :
    add_friend [] [⟨1, 2, FriendStatusEnum.FRIEND⟩] 1 2 =
      Except.ok [⟨1, 2, FriendStatusEnum.FRIEND⟩] ∧
    add_friend [] [⟨1, 2, FriendStatusEnum.FRIEND⟩] 2 1 =
      Except.ok [⟨1, 2, FriendStatusEnum.FRIEND⟩] :=
  C10_friend_add_noop [] [⟨1, 2, FriendStatusEnum.FRIEND⟩]
    ⟨1, 2, FriendStatusEnum.FRIEND⟩ 1 2 (by simp [PairUnique]) (by simp)
    (by decide) rfl (by decide)

/-- C5: starting from a store with at most one record per unordered pair,
every successful operation preserves that invariant; moreover add-friend
only ever grows the store by one record, and does so exactly when the
resolved status of the pair was neutral. -/
theorem C5_pair_unique_preserved (users : List Nat)
    (store store' : List Friend) (cur uid : Nat) (hu : PairUnique store) :
    (add_friend users store cur uid = Except.ok store' →
      PairUnique store' ∧
      (store'.length = store.length ∨
        (store'.length = store.length + 1 ∧
          (get_friend_status store cur uid).1 = "neutral"))) ∧
    (remove_friend store cur uid = Except.ok store' →
      PairUnique store') := by
  constructor
  · intro h
    by_cases hcu : cur = uid
    · simp [add_friend, hcu] at h
    · rw [add_friend, if_neg (by simp [hcu])] at h
      cases hfp : findPair store cur uid with
      | none =>
        rw [get_friend_status_of_none store cur uid hfp] at h
        simp [add_friend_body, queryUserOne] at h
        by_cases hcont : uid ∈ users
        · rw [if_pos hcont] at h
          simp at h
          subst h
          refine ⟨pairUnique_append_new store cur uid
            FriendStatusEnum.PENDING hu hfp, Or.inr ⟨by simp, ?_⟩⟩
          rw [get_friend_status_of_none store cur uid hfp]
        · rw [if_neg hcont] at h
          simp at h
      | some r =>
        cases hsst : r.status with
        | FRIEND =>
          rw [get_friend_status_of_friend store r cur uid hfp hsst] at h
          simp [add_friend_body] at h
          subst h
          exact ⟨hu, Or.inl rfl⟩
        | PENDING =>
          by_cases hq : r.user1_id = cur
          · rw [get_friend_status_of_sent store r cur uid hfp hsst hq] at h
            simp [add_friend_body] at h
            subst h
            exact ⟨hu, Or.inl rfl⟩
          · rw [get_friend_status_of_approve store r cur uid
              hfp hsst hq] at h
            simp [add_friend_body] at h
            subst h
            exact ⟨pairUnique_approveFirstPair store cur uid hu,
              Or.inl (approveFirstPair_length store cur uid)⟩
  · intro h
    by_cases hcu : cur = uid
    · simp [remove_friend, hcu] at h
    · rw [remove_friend, if_neg (by simp [hcu])] at h
      cases hfp : findPair store cur uid with
      | none =>
        rw [get_friend_status_of_none store cur uid hfp] at h
        simp at h
        subst h
        exact hu
      | some r =>
        have hbody : ∀ s : String,
            remove_friend_body store cur uid s = Except.ok store' →
            PairUnique store' := by
          intro s hs
          rw [remove_friend_body] at hs
          by_cases hfour : (s == "friend" || s == "pending-sent-request" ||
              s == "pending-to-approve" || s == "neutral") = true
          · rw [if_pos hfour] at hs
            simp at hs
            subst hs
            exact pairUnique_deleteFirstPair store cur uid hu
          · rw [if_neg hfour] at hs
            simp at hs
        cases hsst : r.status with
        | FRIEND =>
          rw [get_friend_status_of_friend store r cur uid hfp hsst] at h
          exact hbody _ h
        | PENDING =>
          by_cases hq : r.user1_id = cur
          · rw [get_friend_status_of_sent store r cur uid hfp hsst hq] at h
            exact hbody _ h
          · rw [get_friend_status_of_approve store r cur uid
              hfp hsst hq] at h
            exact hbody _ h

/-- C5 witness: sending a request over the empty store yields a one-record
store that still satisfies the invariant. -/
theorem C5_pair_unique_preserved_witness :
    PairUnique [⟨1, 2, FriendStatusEnum.PENDING⟩] :=
  ((C5_pair_unique_preserved [2] [] [⟨1, 2, FriendStatusEnum.PENDING⟩] 1 2
      (by simp [PairUnique])).1 rfl).1

end Fitnest
